import Mathlib

/-!
Shallow embedding of the rusty_antlr_runtime crate (files src/recognizer.rs
and src/tree.rs) together with a spec-modelled adaptive-prediction engine.
The crate's other modules (atn, dfa, atn_simulator, token, vocabulary, ...)
are referenced by the two source files but are not part of the repository
snapshot; where a claim depends on them, the corresponding definitions are
modelled from the specification and marked as such in their doc comments.

Rust idioms are embedded as follows: owned mutation becomes explicit state
passing (a method on `&mut self` becomes a function returning the updated
value), `isize` becomes `Int`, `Vec` and `HashMap` become `List` (a hash
map is a key-value list whose lookup takes the most recently inserted
binding, matching insert-overwrite semantics), and panicking or fallible
code returns `Option`.
-/

/-! ### Version constants and check (recognizer.rs lines 22-34) -/

/-- Major version of the runtime. The Rust constant reads
CARGO_PKG_VERSION_MAJOR at compile time; the manifest is not in the
snapshot, so the value is taken from the commented-out compile-time check
in recognizer.rs line 36. No theorem depends on the concrete value. -/
def VERSION_MAJOR : String := "0"

/-- Minor version of the runtime, modelled like VERSION_MAJOR. -/
def VERSION_MINOR : String := "2"

/-- check_version from recognizer.rs lines 31-34. The Rust function
asserts; we return `true` exactly when the assertion passes (no panic). -/
def check_version (major minor : String) : Bool :=
  major == VERSION_MAJOR && minor == VERSION_MINOR

/-! ### Token constants

Modelled from the spec: the crate's token module (crate::token) is not in
the snapshot; TOKEN_EOF and TOKEN_INVALID_TYPE are the reserved sentinel
token types imported by recognizer.rs line 13 (EOF is the reserved
sentinel symbol of the input-stream contract, spec section 6). The claims
use them only symbolically; the ANTLR-conventional values are used. -/

/-- Modelled from the spec: reserved EOF token type (missing token module). -/
def TOKEN_EOF : Int := -1

/-- Modelled from the spec: token type returned for unknown token names
(missing token module). -/
def TOKEN_INVALID_TYPE : Int := 0

/-! ### Adaptive-prediction engine

Modelled from the spec: the prediction engine (crate::atn_simulator,
crate::dfa, crate::atn_config_set modules) is not in the snapshot; only
its callers and declarations appear in recognizer.rs. The model follows
spec sections 3, 4.3 and 4.4:
- a Configuration is an (ATN state, alternative number, call context)
  tuple (section 3); predicates are omitted, no claim touches them;
- a ConfigurationSet is a deduplicated collection of configurations;
- the ATN is presented through its one capability prediction needs here:
  for a configuration and an input symbol, the configurations reachable by
  consuming that symbol and closing over epsilon transitions (sections
  4.2, 4.3 step 2);
- per decision, the DFA is a lazily grown cache of previously computed
  outcomes "addressed by the sequence of input symbols consumed"
  (section 3); it is additive only (section 4.3);
- resolution follows section 4.3: a unique surviving alternative is
  returned; an empty set fails with no-viable-alternative; a confirmed
  ambiguity is resolved to the numerically smallest ambiguous alternative
  (section 4.4); otherwise another symbol is consumed. -/

/-- Modelled from the spec: a prediction configuration, spec section 3. -/
structure Config where
  state : Nat
  alt : Nat
  ctx : List Nat
deriving DecidableEq

/-- Modelled from the spec: a configuration set, spec section 3. -/
abbrev ConfigSet := List Config

/-- Modelled from the spec: the ATN as prediction consumes it - the
closure of the configurations reached from a configuration by one input
symbol (spec sections 4.2 and 4.3 step 2). -/
structure ATN where
  move : Config → Nat → List Config

/-- Modelled from the spec: one simulation step - move every configuration
over the symbol and deduplicate (spec section 4.3 step 2). -/
def stepSet (atn : ATN) (s : ConfigSet) (x : Nat) : ConfigSet :=
  (s.flatMap fun c => atn.move c x).dedup

/-- Modelled from the spec: the unique surviving alternative of a set, if
the set "resolves uniquely" (spec section 3). -/
def uniqueAlt (s : ConfigSet) : Option Nat :=
  match (s.map Config.alt).dedup with
  | [a] => some a
  | _ => none

/-- Modelled from the spec: two configurations agree on state and context
(conflict detection compares state and context, spec section 3). -/
def sameStateCtx (c c' : Config) : Bool :=
  c.state == c'.state && c.ctx == c'.ctx

/-- Modelled from the spec: a configuration is in conflict inside s when
some configuration of s has the same state and context but a different
alternative (spec sections 3 and 4.3 step 3). -/
def isConflicted (s : ConfigSet) (c : Config) : Bool :=
  s.any fun c' => sameStateCtx c c' && c.alt != c'.alt

/-- Modelled from the spec: the set of alternative numbers participating
in a confirmed ambiguity - alternatives of configurations identical in
state and context to a configuration of another alternative (spec
section 4.4). -/
def ambiguousAlts (s : ConfigSet) : List Nat :=
  ((s.filter (isConflicted s)).map Config.alt).dedup

/-- Modelled from the spec: the set is confirmed ambiguous when some
alternatives are identical in resulting state and context (spec
section 4.4). -/
def confirmedAmbiguous (s : ConfigSet) : Bool :=
  !(ambiguousAlts s).isEmpty

/-- Modelled from the spec: the numerically smallest element of a list of
alternative numbers (tie-break rule, spec section 4.4). -/
def minAlt : List Nat → Option Nat
  | [] => none
  | a :: rest =>
    match minAlt rest with
    | none => some a
    | some b => some (min a b)

/-- Modelled from the spec: resolution attempt on the current set (spec
section 4.3 steps 3-5). `some r` means prediction terminates now with
outcome r (`none` inside r is the no-viable-alternative failure); `none`
means another input symbol must be consumed. -/
def resolveStep (s : ConfigSet) : Option (Option Nat) :=
  if s = [] then some none
  else
    match uniqueAlt s with
    | some a => some (some a)
    | none =>
      if confirmedAmbiguous s then some (minAlt (ambiguousAlts s))
      else none

/-- Modelled from the spec: cache-free ATN simulation of one prediction,
consuming input symbols until resolution (spec section 4.3). Running out
of input before resolution is a prediction failure. -/
def simulate (atn : ATN) : List Nat → ConfigSet → Option Nat
  | [], s => (resolveStep s).getD none
  | x :: rest, s =>
    match resolveStep s with
    | some r => r
    | none => simulate atn rest (stepSet atn s x)

/-- Modelled from the spec: the DFA of one decision - a lazily grown cache
of previously computed prediction outcomes addressed by the consumed input
sequence (spec section 3). -/
structure PredictionDFA where
  cache : List (List Nat × Option Nat)

/-- Modelled from the spec: the root DFA of a decision before first use. -/
def PredictionDFA.empty : PredictionDFA := ⟨[]⟩

/-- Modelled from the spec: adaptivePredict for one decision (spec
section 4.3). On a cache hit the cached outcome is returned without
touching the ATN (step 1); on a miss the ATN simulation runs and its
outcome is inserted into the cache (steps 2-6, additive only). Returns
the outcome together with the updated DFA. -/
def predict (atn : ATN) (s₀ : ConfigSet) (dfa : PredictionDFA) (input : List Nat) :
    Option Nat × PredictionDFA :=
  match dfa.cache.lookup input with
  | some r => (r, dfa)
  | none => (simulate atn input s₀, ⟨(input, simulate atn input s₀) :: dfa.cache⟩)

/-- A DFA cache is consistent when every cached outcome equals the
cache-free simulation outcome for its key. -/
def dfaConsistent (atn : ATN) (s₀ : ConfigSet) (dfa : PredictionDFA) : Prop :=
  ∀ k r, (k, r) ∈ dfa.cache → r = simulate atn k s₀

/-- The DFAs reachable by sequences of predict calls from the empty root
DFA of a decision. -/
inductive Reachable (atn : ATN) (s₀ : ConfigSet) : PredictionDFA → Prop where
  | empty : Reachable atn s₀ PredictionDFA.empty
  | step (d : PredictionDFA) (input : List Nat) :
      Reachable atn s₀ d → Reachable atn s₀ (predict atn s₀ d input).2

/-! Concrete fixtures used by the witnesses. -/

/-- A concrete ATN with no moves, used by witnesses. -/
def exATN : ATN := ⟨fun _ _ => []⟩

/-- A concrete start configuration set that resolves uniquely to
alternative 1, used by witnesses. -/
def exS0 : ConfigSet := [⟨0, 1, []⟩]

/-- A concrete configuration set confirmed ambiguous over alternatives
2, 3 and 5, used by witnesses. -/
def ambSet : ConfigSet := [⟨0, 2, []⟩, ⟨0, 3, []⟩, ⟨0, 5, []⟩]

/-! ### Collaborator types of the recognizer façade

Modelled from the spec: these modules (crate::vocabulary, crate::atn,
crate::atn_deserializer, crate::int_stream, crate::atn_simulator,
crate::error_listener, crate::token_factory) are not in the snapshot;
recognizer.rs only imports and calls them. Each carries exactly the
capability recognizer.rs uses. -/

/-- Modelled from the spec: VocabularyImpl exposing a literal and a
symbolic display name per token type (missing vocabulary module; used by
RecognizerImpl::new through getLiteralName and getSymbolicName). -/
structure VocabularyImpl where
  literalNames : List (Option String)
  symbolicNames : List (Option String)
deriving DecidableEq

/-- getLiteralName of the modelled vocabulary. -/
def VocabularyImpl.getLiteralName (v : VocabularyImpl) (i : Nat) : Option String :=
  v.literalNames.getD i none

/-- getSymbolicName of the modelled vocabulary. -/
def VocabularyImpl.getSymbolicName (v : VocabularyImpl) (i : Nat) : Option String :=
  v.symbolicNames.getD i none

/-- Modelled from the spec: the decoded ATN graph (missing atn module).
Spec section 3 requires a maximum token type; the decoded payload is kept
so that two deserializations of different inputs stay distinguishable. No
claim depends on the concrete decoding. -/
structure ATNGraph where
  maxTokenType : Nat
  payload : List Char
deriving DecidableEq

/-- Modelled from the spec: ATNDeserializer::deserialize (missing
atn_deserializer module) - a deterministic pure decoder from the
serialized character sequence (spec sections 4.1 and 6); the stand-in
maxTokenType is the payload length, which no claim depends on. -/
def deserialize (chars : List Char) : ATNGraph :=
  { maxTokenType := chars.length, payload := chars }

/-- Modelled from the spec: an input stream with a cursor supporting seek
(missing int_stream module; spec section 6 input-stream contract). -/
structure InputStream where
  pos : Int
  data : List Int
deriving DecidableEq

/-- seek of the modelled input stream: moves the cursor. -/
def InputStream.seek (s : InputStream) (p : Int) : InputStream :=
  { s with pos := p }

/-- Modelled from the spec: the ATN simulator behind the recognizer
(missing atn_simulator module, the IATNSimulator of recognizer.rs). It
owns the per-decision DFA caches. -/
structure ATNInterpreter where
  dfas : List PredictionDFA

/-- Modelled from the spec: IATNSimulator::reset clears no persistent
state other than the DFA caches (spec section 6 prediction engine API). -/
def ATNInterpreter.reset (it : ATNInterpreter) : ATNInterpreter :=
  { it with dfas := [] }

/-- Modelled from the spec: a registered error listener, an opaque handler
object (missing error_listener module); only identity matters here. -/
structure ErrorListener where
  tag : Nat
deriving DecidableEq

/-- Modelled from the spec: a token factory handle (missing token_factory
module); only identity matters here. -/
structure TokenFactory where
  tag : Nat
deriving DecidableEq

/-- Modelled from the spec: per-decision profiling statistics handle
(ParseInfo is declared in recognizer.rs but never read by the claims). -/
structure ParseInfoData where
  decisions : List Nat

/-! ### RecognizerImpl (recognizer.rs lines 298-473) -/

/-- RecognizerImpl from recognizer.rs lines 298-314, with trait-object
fields replaced by their models above. -/
structure RecognizerImpl where
  grammar_file_name : String
  rule_names : List String
  channel_names : List String
  mode_names : List String
  vocabulary : VocabularyImpl
  serialized_atn : List String
  interpreter : Option ATNInterpreter
  input : Option InputStream
  token_factory : Option TokenFactory
  error_listeners : List ErrorListener
  parse_info : Option ParseInfoData
  atn : ATNGraph
  rule_index_map : List (String × Nat)
  token_type_map : List (String × Int)
  state_number : Int

/-- One iteration of the token-type-table loop of RecognizerImpl::new
(recognizer.rs lines 333-342): insert the literal name of token type i
when present, then its symbolic name when present. A HashMap insert is
modelled by prepending, so lookup finds the most recent binding first. -/
def insertTokenNames (vocab : VocabularyImpl) (m : List (String × Int))
    (i : Nat) : List (String × Int) :=
  let m1 :=
    match vocab.getLiteralName i with
    | some s => (s, (i : Int)) :: m
    | none => m
  match vocab.getSymbolicName i with
  | some s => (s, (i : Int)) :: m1
  | none => m1

/-- The token-type table built by RecognizerImpl::new (recognizer.rs lines
332-343): for each token type below the ATN's maxTokenType insert the
literal then the symbolic name, then insert the EOF binding last. -/
def tokenTypeMapOf (vocab : VocabularyImpl) (maxTokenType : Nat) :
    List (String × Int) :=
  ("EOF", TOKEN_EOF) ::
    (List.range maxTokenType).foldl (insertTokenNames vocab) []

/-- RecognizerImpl::new (recognizer.rs lines 317-363): builds the
rule-index table from rule_names, deserializes the ATN once from the
concatenated serialized form, builds the token-type table, and starts
with no interpreter, no input, no token factory, no listeners and state
number -1. -/
def RecognizerImpl.new (grammar_file_name : String) (rule_names : List String)
    (channel_names : List String) (mode_names : List String)
    (vocabulary : VocabularyImpl) (serialized_atn : List String) :
    RecognizerImpl :=
  let rule_index_map :=
    (List.range rule_names.length).foldl
      (fun m i => (rule_names.getD i "", i) :: m) []
  let atn := deserialize (String.join serialized_atn).data
  let token_type_map := tokenTypeMapOf vocabulary atn.maxTokenType
  { grammar_file_name := grammar_file_name
    rule_names := rule_names
    channel_names := channel_names
    mode_names := mode_names
    vocabulary := vocabulary
    serialized_atn := serialized_atn
    interpreter := none
    input := none
    token_factory := none
    error_listeners := []
    parse_info := none
    atn := atn
    rule_index_map := rule_index_map
    token_type_map := token_type_map
    state_number := -1 }

/-- get_rule_names (recognizer.rs lines 368-370). -/
def RecognizerImpl.get_rule_names (r : RecognizerImpl) : List String :=
  r.rule_names

/-- get_vocabulary (recognizer.rs lines 372-374). -/
def RecognizerImpl.get_vocabulary (r : RecognizerImpl) : VocabularyImpl :=
  r.vocabulary

/-- get_token_type_map (recognizer.rs lines 376-378). -/
def RecognizerImpl.get_token_type_map (r : RecognizerImpl) :
    List (String × Int) :=
  r.token_type_map

/-- get_token_type (recognizer.rs lines 384-389): look the name up in the
token-type table, returning TOKEN_INVALID_TYPE when absent. -/
def RecognizerImpl.get_token_type (r : RecognizerImpl) (token_name : String) :
    Int :=
  match r.token_type_map.lookup token_name with
  | some t => t
  | none => TOKEN_INVALID_TYPE

/-- get_grammar_file_name (recognizer.rs lines 395-397). -/
def RecognizerImpl.get_grammar_file_name (r : RecognizerImpl) : String :=
  r.grammar_file_name

/-- get_atn (recognizer.rs lines 399-401): returns (a shared handle to)
the ATN built in new. -/
def RecognizerImpl.get_atn (r : RecognizerImpl) : ATNGraph :=
  r.atn

/-- get_interpreter (recognizer.rs lines 403-405). -/
def RecognizerImpl.get_interpreter (r : RecognizerImpl) :
    Option ATNInterpreter :=
  r.interpreter

/-- set_interpreter (recognizer.rs lines 411-413). -/
def RecognizerImpl.set_interpreter (r : RecognizerImpl)
    (interpreter : Option ATNInterpreter) : RecognizerImpl :=
  { r with interpreter := interpreter }

/-- add_error_listener (recognizer.rs lines 419-421): Vec::push appends at
the end. -/
def RecognizerImpl.add_error_listener (r : RecognizerImpl)
    (listener : ErrorListener) : RecognizerImpl :=
  { r with error_listeners := r.error_listeners ++ [listener] }

/-- get_error_listeners (recognizer.rs lines 423-425): returns a clone of
the listener collection. -/
def RecognizerImpl.get_error_listeners (r : RecognizerImpl) :
    List ErrorListener :=
  r.error_listeners

/-- get_state (recognizer.rs lines 441-443). -/
def RecognizerImpl.get_state (r : RecognizerImpl) : Int :=
  r.state_number

/-- set_state (recognizer.rs lines 445-447). -/
def RecognizerImpl.set_state (r : RecognizerImpl) (state : Int) :
    RecognizerImpl :=
  { r with state_number := state }

/-- set_input_stream (recognizer.rs lines 453-455). -/
def RecognizerImpl.set_input_stream (r : RecognizerImpl)
    (input : Option InputStream) : RecognizerImpl :=
  { r with input := input }

/-- set_token_factory (recognizer.rs lines 461-463). -/
def RecognizerImpl.set_token_factory (r : RecognizerImpl)
    (factory : Option TokenFactory) : RecognizerImpl :=
  { r with token_factory := factory }

/-- reset (recognizer.rs lines 465-472): seek the input stream to 0 when
present, and reset the interpreter when present. -/
def RecognizerImpl.reset (r : RecognizerImpl) : RecognizerImpl :=
  let r1 :=
    match r.input with
    | some inp => { r with input := some (inp.seek 0) }
    | none => r
  match r1.interpreter with
  | some it => { r1 with interpreter := some it.reset }
  | none => r1

/-! ### Tree nodes (tree.rs) -/

/-- NodeType from tree.rs lines 26-32. -/
inductive NodeType where
  | Leaf
  | Error
  | Rule
  | AST
  | Empty

/-- NodeImpl from tree.rs lines 33-42, restricted to the fields its child
accessors read (node_type and children); parent, token, rule context,
source interval, sempred and action are not touched by get_child,
get_child_count or get_children. -/
inductive NodeImpl where
  | mk (node_type : NodeType) (children : List NodeImpl)

/-- The children field of a node. -/
def NodeImpl.children : NodeImpl → List NodeImpl
  | .mk _ cs => cs

/-- get_child (tree.rs lines 119-121): Vec::get, None when out of range. -/
def NodeImpl.get_child (n : NodeImpl) (i : Nat) : Option NodeImpl :=
  n.children.get? i

/-- get_child_count (tree.rs lines 122-124). -/
def NodeImpl.get_child_count (n : NodeImpl) : Nat :=
  n.children.length

/-- get_children as written (tree.rs lines 125-138): the conditional
`if index < child_count then get_child(index - 1) else None` is evaluated
once (not wrapped in an iterator closure), and the resulting Option is
boxed as the iterator, so the returned iterator yields the elements of
that single Option: child 0 when the node has any children, and nothing
otherwise. -/
def NodeImpl.get_children (n : NodeImpl) : List NodeImpl :=
  (if 0 < n.get_child_count then n.get_child 0 else none).toList

/-! ### Helper lemmas -/

/-- A successful association-list lookup is a member of the list. -/
theorem lookup_mem {α β : Type} [BEq α] [LawfulBEq α] {l : List (α × β)}
    {k : α} {r : β} (h : l.lookup k = some r) : (k, r) ∈ l := by
  induction l with
  | nil => simp [List.lookup] at h
  | cons p t ih =>
    obtain ⟨a, b⟩ := p
    simp only [List.lookup] at h
    cases hk : k == a with
    | false =>
      rw [hk] at h
      exact List.mem_cons_of_mem _ (ih h)
    | true =>
      rw [hk] at h
      obtain rfl : b = r := by simpa using h
      obtain rfl : k = a := eq_of_beq hk
      exact List.mem_cons_self _ _

/-- Looking a key up past a cons with a different key skips the head. -/
theorem lookup_cons_ne {β : Type} {k a : String} (b : β)
    (t : List (String × β)) (h : k ≠ a) :
    ((a, b) :: t).lookup k = t.lookup k := by
  simp only [List.lookup]
  rw [beq_eq_false_iff_ne.mpr h]

/-- Looking a key up at a cons with the same key returns its value. -/
theorem lookup_cons_self {β : Type} {a : String} (b : β)
    (t : List (String × β)) : ((a, b) :: t).lookup a = some b := by
  simp only [List.lookup]
  rw [beq_self_eq_true]

/-- With a consistent cache, predict returns the cache-free simulation
outcome on both the hit and the miss path. -/
theorem predict_fst (atn : ATN) (s₀ : ConfigSet) (d : PredictionDFA)
    (input : List Nat) (h : dfaConsistent atn s₀ d) :
    (predict atn s₀ d input).1 = simulate atn input s₀ := by
  rcases hl : d.cache.lookup input with _ | r
  · simp [predict, hl]
  · simp only [predict, hl]
    exact h _ _ (lookup_mem hl)

/-- predict preserves cache consistency. -/
theorem dfaConsistent_predict (atn : ATN) (s₀ : ConfigSet)
    (d : PredictionDFA) (input : List Nat) (h : dfaConsistent atn s₀ d) :
    dfaConsistent atn s₀ (predict atn s₀ d input).2 := by
  rcases hl : d.cache.lookup input with _ | r
  · intro k r' hm
    simp only [predict, hl, List.mem_cons] at hm
    rcases hm with hm | hm
    · obtain ⟨rfl, rfl⟩ := Prod.mk.injEq .. ▸ hm
      rfl
    · exact h _ _ hm
  · intro k r' hm
    simp only [predict, hl] at hm
    exact h _ _ hm

/-- Every DFA reachable by predict calls from the empty root is
consistent. -/
theorem reachable_consistent {atn : ATN} {s₀ : ConfigSet}
    {d : PredictionDFA} (h : Reachable atn s₀ d) : dfaConsistent atn s₀ d := by
  induction h with
  | empty => intro k r hm; simp [PredictionDFA.empty] at hm
  | step d input _ ih => exact dfaConsistent_predict atn s₀ d input ih

/-- minAlt returns none exactly on the empty list. -/
theorem minAlt_eq_none {l : List Nat} : minAlt l = none ↔ l = [] := by
  cases l with
  | nil => simp [minAlt]
  | cons a t =>
    simp only [minAlt]
    cases minAlt t <;> simp

/-- minAlt returns an element of the list. -/
theorem minAlt_mem {l : List Nat} {a : Nat} (h : minAlt l = some a) :
    a ∈ l := by
  induction l generalizing a with
  | nil => simp [minAlt] at h
  | cons x t ih =>
    simp only [minAlt] at h
    cases hm : minAlt t with
    | none =>
      rw [hm] at h
      obtain rfl : x = a := by simpa using h
      exact List.mem_cons_self _ _
    | some b =>
      rw [hm] at h
      obtain rfl : min x b = a := by simpa using h
      rcases min_choice x b with hc | hc
      · rw [hc]; exact List.mem_cons_self _ _
      · rw [hc]; exact List.mem_cons_of_mem _ (ih hm)

/-- minAlt returns a lower bound of the list. -/
theorem minAlt_le {l : List Nat} {a : Nat} (h : minAlt l = some a) :
    ∀ b ∈ l, a ≤ b := by
  induction l generalizing a with
  | nil => simp
  | cons x t ih =>
    simp only [minAlt] at h
    cases hm : minAlt t with
    | none =>
      rw [hm] at h
      obtain rfl : x = a := by simpa using h
      obtain rfl : t = [] := minAlt_eq_none.mp hm
      simp
    | some c =>
      rw [hm] at h
      obtain rfl : min x c = a := by simpa using h
      intro b hb
      rcases List.mem_cons.mp hb with rfl | hb
      · exact min_le_left _ _
      · exact le_trans (min_le_right _ _) (ih hm b hb)

/-- On a set that is nonempty, not uniquely resolved, and confirmed
ambiguous, simulation terminates at once with the minimum ambiguous
alternative, for every input. -/
theorem simulate_of_ambiguous (atn : ATN) (input : List Nat)
    {s : ConfigSet} (hne : s ≠ []) (hu : uniqueAlt s = none)
    (hamb : confirmedAmbiguous s = true) :
    simulate atn input s = minAlt (ambiguousAlts s) := by
  have hres : resolveStep s = some (minAlt (ambiguousAlts s)) := by
    simp [resolveStep, hne, hu, hamb]
  cases input <;> simp [simulate, hres]

/-- Folding listener registrations appends them in order. -/
theorem get_error_listeners_foldl (ls : List ErrorListener)
    (r : RecognizerImpl) :
    (ls.foldl RecognizerImpl.add_error_listener r).get_error_listeners
      = r.get_error_listeners ++ ls := by
  induction ls generalizing r with
  | nil => simp
  | cons l t ih =>
    rw [List.foldl_cons, ih]
    simp [RecognizerImpl.add_error_listener,
      RecognizerImpl.get_error_listeners]

/-- reset leaves every field except input and interpreter unchanged. -/
theorem reset_fields (r : RecognizerImpl) :
    r.reset.grammar_file_name = r.grammar_file_name ∧
    r.reset.rule_names = r.rule_names ∧
    r.reset.channel_names = r.channel_names ∧
    r.reset.mode_names = r.mode_names ∧
    r.reset.vocabulary = r.vocabulary ∧
    r.reset.serialized_atn = r.serialized_atn ∧
    r.reset.token_factory = r.token_factory ∧
    r.reset.error_listeners = r.error_listeners ∧
    r.reset.parse_info = r.parse_info ∧
    r.reset.atn = r.atn ∧
    r.reset.rule_index_map = r.rule_index_map ∧
    r.reset.token_type_map = r.token_type_map ∧
    r.reset.state_number = r.state_number := by
  obtain ⟨gfn, rn, cn, mn, v, sa, itp, inp, tf, el, pi, atn, rim, ttm, sn⟩ := r
  cases inp <;> cases itp <;> simp [RecognizerImpl.reset]

/-- Inserting names of one token type preserves a failing lookup of a
name that is neither of them. -/
theorem lookup_insertTokenNames_none (vocab : VocabularyImpl)
    (m : List (String × Int)) (i : Nat) (name : String)
    (hm : m.lookup name = none)
    (hlit : vocab.getLiteralName i ≠ some name)
    (hsym : vocab.getSymbolicName i ≠ some name) :
    (insertTokenNames vocab m i).lookup name = none := by
  unfold insertTokenNames
  cases hl : vocab.getLiteralName i with
  | none =>
    cases hs : vocab.getSymbolicName i with
    | none => simpa using hm
    | some s =>
      have hns : name ≠ s := fun e => hsym (by rw [hs, e])
      simpa [lookup_cons_ne _ _ hns] using hm
  | some s1 =>
    have hns1 : name ≠ s1 := fun e => hlit (by rw [hl, e])
    cases hs : vocab.getSymbolicName i with
    | none => simpa [lookup_cons_ne _ _ hns1] using hm
    | some s2 =>
      have hns2 : name ≠ s2 := fun e => hsym (by rw [hs, e])
      simpa [lookup_cons_ne _ _ hns2, lookup_cons_ne _ _ hns1] using hm

/-- Folding token-name insertions over a list of token types preserves a
failing lookup of a name none of them mentions. -/
theorem lookup_foldl_insertTokenNames_none (vocab : VocabularyImpl)
    (name : String) (is : List Nat) (m : List (String × Int))
    (hm : m.lookup name = none)
    (h : ∀ i ∈ is, vocab.getLiteralName i ≠ some name ∧
        vocab.getSymbolicName i ≠ some name) :
    (is.foldl (insertTokenNames vocab) m).lookup name = none := by
  induction is generalizing m with
  | nil => simpa using hm
  | cons i t ih =>
    simp only [List.foldl_cons]
    refine ih _ ?_ fun j hj => h j (List.mem_cons_of_mem _ hj)
    exact lookup_insertTokenNames_none vocab m i name hm
      (h i (List.mem_cons_self _ _)).1 (h i (List.mem_cons_self _ _)).2

/-! ### Claim theorems -/

/-- Claim C1: for every fixed ATN and fixed input sequence, two
invocations of predict on the same decision return the same alternative,
whatever DFA caches (reachable by earlier predict calls, pre-warmed or
empty) the two invocations start from - the cache-hit and cache-miss
paths agree. -/
theorem claim_C1_predict_deterministic (atn : ATN) (s₀ : ConfigSet)
    (d₁ d₂ : PredictionDFA) (input : List Nat)
    (h₁ : Reachable atn s₀ d₁) (h₂ : Reachable atn s₀ d₂) :
    (predict atn s₀ d₁ input).1 = (predict atn s₀ d₂ input).1 := by
  rw [predict_fst atn s₀ d₁ input (reachable_consistent h₁),
    predict_fst atn s₀ d₂ input (reachable_consistent h₂)]

/-- Witness for C1: a cache-miss run from the empty DFA agrees with the
cache-hit run from the DFA pre-warmed by that very call. -/
theorem claim_C1_witness :
    Reachable exATN exS0 PredictionDFA.empty ∧
    Reachable exATN exS0 (predict exATN exS0 PredictionDFA.empty [7]).2 ∧
    (predict exATN exS0 PredictionDFA.empty [7]).1
      = (predict exATN exS0
          (predict exATN exS0 PredictionDFA.empty [7]).2 [7]).1 :=
  ⟨Reachable.empty, Reachable.step PredictionDFA.empty [7] Reachable.empty,
    claim_C1_predict_deterministic exATN exS0 PredictionDFA.empty
      (predict exATN exS0 PredictionDFA.empty [7]).2 [7] Reachable.empty
      (Reachable.step PredictionDFA.empty [7] Reachable.empty)⟩

/-- Claim C2: whenever prediction confirms an ambiguity over a set of
alternative numbers, it returns the numerically smallest alternative of
that set: on a nonempty, not uniquely resolved, confirmed-ambiguous
configuration set whose minimum ambiguous alternative is a, simulation
returns a, a is one of the ambiguous alternatives, and a is below any
ambiguous alternative b. -/
theorem claim_C2_ambiguity_tiebreak (atn : ATN) (input : List Nat)
    (s : ConfigSet) (a b : Nat) (hne : s ≠ [])
    (hu : uniqueAlt s = none) (hamb : confirmedAmbiguous s = true)
    (hmin : minAlt (ambiguousAlts s) = some a)
    (hb : b ∈ ambiguousAlts s) :
    simulate atn input s = some a ∧ a ∈ ambiguousAlts s ∧ a ≤ b := by
  refine ⟨?_, minAlt_mem hmin, minAlt_le hmin b hb⟩
  rw [simulate_of_ambiguous atn input hne hu hamb, hmin]

/-- Witness for C2: on the concrete configuration set confirmed ambiguous
over alternatives 2, 3 and 5, prediction returns 2. -/
theorem claim_C2_witness :
    ambSet ≠ [] ∧ uniqueAlt ambSet = none ∧
    confirmedAmbiguous ambSet = true ∧
    minAlt (ambiguousAlts ambSet) = some 2 ∧ 5 ∈ ambiguousAlts ambSet ∧
    (simulate exATN [] ambSet = some 2 ∧ 2 ∈ ambiguousAlts ambSet ∧ 2 ≤ 5) :=
  ⟨by decide, by decide, by decide, by decide, by decide,
    claim_C2_ambiguity_tiebreak exATN [] ambSet 2 5 (by decide) (by decide)
      (by decide) (by decide) (by decide)⟩

/-- Claim C3: check_version succeeds (the assertion passes, no panic)
exactly when the major and minor arguments equal the runtime's compiled
VERSION_MAJOR and VERSION_MINOR. -/
theorem claim_C3_check_version (major minor : String) :
    check_version major minor = true ↔
      major = VERSION_MAJOR ∧ minor = VERSION_MINOR := by
  simp [check_version]

/-- Claim C4: across predict calls the DFA of a decision only grows - the
old cache is a sublist of the new one (no state removed) and the state
count is non-decreasing - and an input prefix already cached with outcome
r still predicts r from any DFA reachable by predict calls. -/
theorem claim_C4_dfa_monotone (atn : ATN) (s₀ : ConfigSet)
    (d d' : PredictionDFA) (input k : List Nat) (r : Option Nat)
    (hd : Reachable atn s₀ d) (hmem : (k, r) ∈ d.cache)
    (hd' : Reachable atn s₀ d') :
    List.Sublist d.cache (predict atn s₀ d input).2.cache ∧
    d.cache.length ≤ (predict atn s₀ d input).2.cache.length ∧
    (predict atn s₀ d' k).1 = r := by
  have hgrow : List.Sublist d.cache (predict atn s₀ d input).2.cache := by
    rcases hl : d.cache.lookup input with _ | r'
    · simp only [predict, hl]
      exact List.Sublist.cons _ (List.Sublist.refl _)
    · simp only [predict, hl]
      exact List.Sublist.refl _
  refine ⟨hgrow, hgrow.length_le, ?_⟩
  rw [predict_fst atn s₀ d' k (reachable_consistent hd')]
  exact (reachable_consistent hd k r hmem).symm

/-- Witness for C4: the DFA warmed by one call only grows under a second
call, and the entry created by the first call still predicts the same
outcome afterwards. -/
theorem claim_C4_witness :
    Reachable exATN exS0 (predict exATN exS0 PredictionDFA.empty [7]).2 ∧
    ([7], some 1) ∈ (predict exATN exS0 PredictionDFA.empty [7]).2.cache ∧
    Reachable exATN exS0 (predict exATN exS0 PredictionDFA.empty [7]).2 ∧
    (List.Sublist (predict exATN exS0 PredictionDFA.empty [7]).2.cache
        (predict exATN exS0 (predict exATN exS0 PredictionDFA.empty [7]).2
          [9]).2.cache ∧
      (predict exATN exS0 PredictionDFA.empty [7]).2.cache.length ≤
        (predict exATN exS0 (predict exATN exS0 PredictionDFA.empty [7]).2
          [9]).2.cache.length ∧
      (predict exATN exS0
          (predict exATN exS0 PredictionDFA.empty [7]).2 [7]).1 = some 1) :=
  ⟨Reachable.step PredictionDFA.empty [7] Reachable.empty, by decide,
    Reachable.step PredictionDFA.empty [7] Reachable.empty,
    claim_C4_dfa_monotone exATN exS0
      (predict exATN exS0 PredictionDFA.empty [7]).2
      (predict exATN exS0 PredictionDFA.empty [7]).2 [9] [7] (some 1)
      (Reachable.step PredictionDFA.empty [7] Reachable.empty) (by decide)
      (Reachable.step PredictionDFA.empty [7] Reachable.empty)⟩

/-- Claim C5: reset clears no persistent state other than (optionally,
through the interpreter) the DFA cache - the grammar file name, rule
names, vocabulary, token-type map, rule-index map, ATN and registered
error listeners are unchanged. -/
theorem claim_C5_reset_frame (r : RecognizerImpl) :
    r.reset.grammar_file_name = r.grammar_file_name ∧
    r.reset.rule_names = r.rule_names ∧
    r.reset.vocabulary = r.vocabulary ∧
    r.reset.token_type_map = r.token_type_map ∧
    r.reset.rule_index_map = r.rule_index_map ∧
    r.reset.atn = r.atn ∧
    r.reset.error_listeners = r.error_listeners :=
  ⟨(reset_fields r).1, (reset_fields r).2.1, (reset_fields r).2.2.2.2.1,
    (reset_fields r).2.2.2.2.2.2.2.2.2.2.2.1,
    (reset_fields r).2.2.2.2.2.2.2.2.2.2.1,
    (reset_fields r).2.2.2.2.2.2.2.2.2.1,
    (reset_fields r).2.2.2.2.2.2.2.1⟩

/-- Claim C6: the ATN held by a recognizer is never mutated after
construction - get_atn reads the atn field, every state-changing
operation of the Recognizer interface preserves it, and on a freshly
constructed recognizer it is the graph deserialized once in new. -/
theorem claim_C6_atn_immutable (r : RecognizerImpl) (s : Int)
    (itp : Option ATNInterpreter) (inp : Option InputStream)
    (tf : Option TokenFactory) (l : ErrorListener) (gfn : String)
    (rn cn mn : List String) (v : VocabularyImpl) (sa : List String) :
    r.get_atn = r.atn ∧
    (r.set_state s).atn = r.atn ∧
    (r.set_interpreter itp).atn = r.atn ∧
    (r.set_input_stream inp).atn = r.atn ∧
    (r.set_token_factory tf).atn = r.atn ∧
    (r.add_error_listener l).atn = r.atn ∧
    r.reset.atn = r.atn ∧
    (RecognizerImpl.new gfn rn cn mn v sa).get_atn
      = deserialize (String.join sa).data :=
  ⟨rfl, rfl, rfl, rfl, rfl, rfl, (reset_fields r).2.2.2.2.2.2.2.2.2.1, rfl⟩

/-- Claim C7: add_error_listener appends the listener at the end of the
collection, leaving the existing ones in place and in order, and
get_error_listeners returns exactly the listeners registered since
construction, in registration order. -/
theorem claim_C7_error_listeners (r : RecognizerImpl) (l : ErrorListener)
    (ls : List ErrorListener) (gfn : String) (rn cn mn : List String)
    (v : VocabularyImpl) (sa : List String) :
    (r.add_error_listener l).get_error_listeners
      = r.get_error_listeners ++ [l] ∧
    (ls.foldl RecognizerImpl.add_error_listener
        (RecognizerImpl.new gfn rn cn mn v sa)).get_error_listeners = ls := by
  refine ⟨rfl, ?_⟩
  rw [get_error_listeners_foldl]
  rfl

/-- Claim C8: after construction, get_token_type of "EOF" is TOKEN_EOF,
and get_token_type of a name that is neither a literal name nor a
symbolic name of any token type below the decoded maxTokenType, nor
"EOF", is TOKEN_INVALID_TYPE rather than a failure. -/
theorem claim_C8_token_type (gfn : String) (rn cn mn : List String)
    (vocab : VocabularyImpl) (sa : List String) (name : String)
    (hlit : ∀ i, i < (deserialize (String.join sa).data).maxTokenType →
        vocab.getLiteralName i ≠ some name)
    (hsym : ∀ i, i < (deserialize (String.join sa).data).maxTokenType →
        vocab.getSymbolicName i ≠ some name)
    (heof : name ≠ "EOF") :
    (RecognizerImpl.new gfn rn cn mn vocab sa).get_token_type "EOF"
      = TOKEN_EOF ∧
    (RecognizerImpl.new gfn rn cn mn vocab sa).get_token_type name
      = TOKEN_INVALID_TYPE := by
  have hmap : (RecognizerImpl.new gfn rn cn mn vocab sa).token_type_map
      = tokenTypeMapOf vocab (deserialize (String.join sa).data).maxTokenType :=
    rfl
  constructor
  · show (match (RecognizerImpl.new gfn rn cn mn vocab sa).token_type_map.lookup
        "EOF" with
      | some t => t
      | none => TOKEN_INVALID_TYPE) = TOKEN_EOF
    rw [hmap, tokenTypeMapOf, lookup_cons_self]
  · show (match (RecognizerImpl.new gfn rn cn mn vocab sa).token_type_map.lookup
        name with
      | some t => t
      | none => TOKEN_INVALID_TYPE) = TOKEN_INVALID_TYPE
    rw [hmap, tokenTypeMapOf, lookup_cons_ne _ _ heof,
      lookup_foldl_insertTokenNames_none vocab name _ _ (by simp [List.lookup])
        fun i hi =>
          ⟨hlit i (List.mem_range.mp hi), hsym i (List.mem_range.mp hi)⟩]

/-- Witness for C8: a concrete recognizer whose vocabulary knows "LIT" and
"ID" maps "EOF" to TOKEN_EOF and the unknown name "zz" to
TOKEN_INVALID_TYPE. -/
theorem claim_C8_witness :
    (∀ i, i < (deserialize (String.join ["ab"]).data).maxTokenType →
        (VocabularyImpl.mk [none, some "LIT"]
            [some "ID", none]).getLiteralName i ≠ some "zz") ∧
    (∀ i, i < (deserialize (String.join ["ab"]).data).maxTokenType →
        (VocabularyImpl.mk [none, some "LIT"]
            [some "ID", none]).getSymbolicName i ≠ some "zz") ∧
    "zz" ≠ "EOF" ∧
    ((RecognizerImpl.new "g" [] [] []
        (VocabularyImpl.mk [none, some "LIT"] [some "ID", none])
        ["ab"]).get_token_type "EOF" = TOKEN_EOF ∧
      (RecognizerImpl.new "g" [] [] []
        (VocabularyImpl.mk [none, some "LIT"] [some "ID", none])
        ["ab"]).get_token_type "zz" = TOKEN_INVALID_TYPE) :=
  ⟨by decide, by decide, by decide,
    claim_C8_token_type "g" [] [] []
      (VocabularyImpl.mk [none, some "LIT"] [some "ID", none]) ["ab"] "zz"
      (by decide) (by decide) (by decide)⟩

/-- Claim C9, evaluated at the failing input: a node with two children has
get_child_count 2, but the iterator produced by get_children as written
yields a single element (the conditional is evaluated once instead of
being re-run per iteration), so it does not yield one element per child. -/
theorem claim_C9_get_children_bug :
    (NodeImpl.mk NodeType.Rule
        [NodeImpl.mk NodeType.Leaf [], NodeImpl.mk NodeType.Leaf []]
      ).get_child_count = 2 ∧
    (NodeImpl.mk NodeType.Rule
        [NodeImpl.mk NodeType.Leaf [], NodeImpl.mk NodeType.Leaf []]
      ).get_children.length = 1 ∧
    (NodeImpl.mk NodeType.Rule
        [NodeImpl.mk NodeType.Leaf [], NodeImpl.mk NodeType.Leaf []]
      ).get_children.length ≠
      (NodeImpl.mk NodeType.Rule
        [NodeImpl.mk NodeType.Leaf [], NodeImpl.mk NodeType.Leaf []]
      ).get_child_count :=
  ⟨rfl, rfl, by decide⟩

/-- Claim C10: get_state returns the last value passed to set_state, and a
freshly constructed recognizer has state -1. -/
theorem claim_C10_state_roundtrip (r : RecognizerImpl) (s : Int)
    (gfn : String) (rn cn mn : List String) (v : VocabularyImpl)
    (sa : List String) :
    (r.set_state s).get_state = s ∧
    (RecognizerImpl.new gfn rn cn mn v sa).get_state = -1 :=
  ⟨rfl, rfl⟩
